import Mathlib

/-!
Verification of the terraform-provider-ollama repository
(`internal/provider/provider.go`, `ollama_model_resource.go`,
`ollama_model_data_source.go`, `domain.go`) against its specification.

The Go code is CRUD glue around an external Ollama daemon client.  We embed
it shallowly: Terraform framework values (`types.String`, `types.Int64`)
become three-state inductives (null / unknown / value), the daemon client
becomes an oracle record of result functions, and each lifecycle method
becomes a pure function returning the calls it issued (in order), the
diagnostics it added and the state it wrote.
-/

namespace OllamaProvider

/-- Terraform framework `types.String`: null, unknown, or a known string. -/
inductive TFString where
  | null
  | unknown
  | value (s : String)
deriving DecidableEq

/-- Go `types.String.IsNull()`. -/
def TFString.isNull : TFString → Bool
  | .null => true
  | _ => false

/-- Go `types.String.IsUnknown()`. -/
def TFString.isUnknown : TFString → Bool
  | .unknown => true
  | _ => false

/-- Go `types.String.ValueString()`: the known string, or "" for null/unknown. -/
def TFString.valueString : TFString → String
  | .value s => s
  | _ => ""

/-- Terraform framework `types.Int64`: null, unknown, or a known integer. -/
inductive TFInt64 where
  | null
  | unknown
  | value (n : Int)
deriving DecidableEq

/-- A Terraform diagnostic: summary and detail strings (error severity). -/
structure Diag where
  summary : String
  detail : String
deriving DecidableEq

/-- Diagnostic added by provider Configure when the host attribute is unknown
(provider.go lines 59-66). -/
def unknownHostDiag : Diag :=
  { summary := "Unknown HashiCups API Host"
    detail := "The provider cannot create the HashiCups API client as there is an unknown configuration value for the HashiCups API host." }

/-- Diagnostic added by provider Configure when no host is resolved
(provider.go lines 78-86). -/
def missingHostDiag : Diag :=
  { summary := "Missing HashiCups API Host"
    detail := "The provider cannot create the HashiCups API client as there is a missing or empty value for the HashiCups API host." }

/-- Diagnostic added by provider Configure when client construction fails
(provider.go lines 97-105). -/
def clientErrorDiag : Diag :=
  { summary := "Error creating ollama client"
    detail := "The provider cannot create the ollama API client as there is a missing or empty value for the OLLAMA_HOST or ollama host." }

/-- Observable side-effecting steps of provider Configure, in order:
`os.Setenv("OLLAMA_HOST", host)` and `api.ClientFromEnvironment()`. -/
inductive ConfigureEvent where
  | setEnv (v : String)
  | mkClient
deriving DecidableEq

/-- Result of provider Configure: diagnostics added, the resolved host (none
when resolution failed before `os.Setenv`), the final value of the
`OLLAMA_HOST` environment variable, the ordered side-effect events, and
whether the client handle was stored into the response. -/
structure ConfigureResult where
  diags : List Diag
  resolvedHost : Option String
  envAfter : String
  events : List ConfigureEvent
  clientSet : Bool
deriving DecidableEq

/-- Shallow embedding of `OllamaProvider.Configure` (provider.go lines
54-113).  `configHost` is the configured `host` attribute, `env` the value
`os.Getenv("OLLAMA_HOST")` returns ("" when unset), `clientOk` whether
`api.ClientFromEnvironment()` succeeds. -/
def providerConfigure (configHost : TFString) (env : String) (clientOk : Bool) :
    ConfigureResult :=
  if configHost.isUnknown then
    { diags := [unknownHostDiag], resolvedHost := none, envAfter := env
      events := [], clientSet := false }
  else
    let host := if configHost.isNull then env else configHost.valueString
    if host = "" then
      { diags := [missingHostDiag], resolvedHost := none, envAfter := env
        events := [], clientSet := false }
    else if clientOk then
      { diags := [], resolvedHost := some host, envAfter := host
        events := [.setEnv host, .mkClient], clientSet := true }
    else
      { diags := [clientErrorDiag], resolvedHost := some host, envAfter := host
        events := [.setEnv host, .mkClient], clientSet := false }

/-- State/plan record of the model resource (domain.go, `OllamaModelResource`). -/
structure OllamaModelResource where
  name : TFString
  modifiedAt : TFString
  size : TFInt64
  digest : TFString
deriving DecidableEq

/-- Error returned by the daemon's Show call: either an `api.StatusError`
with an HTTP status code, or a generic error, each with a message. -/
inductive ShowError where
  | statusError (statusCode : Nat) (msg : String)
  | genericError (msg : String)
deriving DecidableEq

/-- The error text (`err.Error()`) of a Show error. -/
def ShowError.errorText : ShowError → String
  | .statusError _ msg => msg
  | .genericError msg => msg

/-- The not-found test made by Read: the error is an `api.StatusError` whose
status code is 404 (ollama_model_resource.go line 131). -/
def ShowError.isNotFound : ShowError → Bool
  | .statusError code _ => code == 404
  | .genericError _ => false

/-- Daemon-side model details (ollama `api.ModelDetails`). -/
structure ApiModelDetails where
  format : String
  family : String
  families : List String
  parameterSize : String
  quantizationLevel : String
deriving DecidableEq

/-- One entry of the daemon's List response (ollama `api.ListModelResponse`);
`modifiedAt` holds the string rendering `m.ModifiedAt.String()`. -/
structure ApiListModel where
  name : String
  modifiedAt : String
  size : Int
  digest : String
  details : ApiModelDetails
deriving DecidableEq

/-- Oracle for the daemon client: the outcome of each call the provider can
make.  `none` means success; `some msg` an error with message `msg`. -/
structure Daemon where
  pullResult : String → Option String
  deleteResult : String → Option String
  showResult : String → Option ShowError
  listResult : Except String (List ApiListModel)

/-- A daemon call issued by a lifecycle method, with its arguments. -/
inductive Call where
  | pull (name : String) (stream : Bool)
  | delete (name : String)
  | show (name : String)
  | list
deriving DecidableEq

/-- Diagnostic for a failed Pull (ollama_model_resource.go lines 101-104 and
188-191): carries the daemon's error message. -/
def pullErrorDiag (msg : String) : Diag :=
  { summary := "Error pulling model"
    detail := "Could not pull model, unexpected error: " ++ msg }

/-- Diagnostic for a failed Delete (ollama_model_resource.go lines 174-177). -/
def deleteErrorDiag (name msg : String) : Diag :=
  { summary := "Error deleting Ollama Model"
    detail := "Could not delete ollama model " ++ name ++ ": " ++ msg }

/-- Diagnostic for a failed Read (ollama_model_resource.go lines 136-139). -/
def readErrorDiag (name msg : String) : Diag :=
  { summary := "Error Reading Ollama Model"
    detail := "Could not read ollama model " ++ name ++ ": " ++ msg }

/-- Result of a resource lifecycle method: the daemon calls it issued in
order, the diagnostics added, and the state written (`none` when the method
returned without persisting a state). -/
structure LifecycleResult where
  calls : List Call
  diags : List Diag
  newState : Option OllamaModelResource
deriving DecidableEq

/-- Shallow embedding of `ollamaModelResource.Create` (ollama_model_resource.go
lines 84-113): one non-streaming Pull for the planned name; on error a
diagnostic and no state, on success the plan is persisted as-is. -/
def create (d : Daemon) (plan : OllamaModelResource) : LifecycleResult :=
  match d.pullResult plan.name.valueString with
  | some e =>
    { calls := [.pull plan.name.valueString false]
      diags := [pullErrorDiag e], newState := none }
  | none =>
    { calls := [.pull plan.name.valueString false]
      diags := [], newState := some plan }

/-- Shallow embedding of `ollamaModelResource.Update` (ollama_model_resource.go
lines 154-202): Delete the old state name, then Pull the planned name, then
persist the plan; each daemon error aborts with a diagnostic. -/
def update (d : Daemon) (state plan : OllamaModelResource) : LifecycleResult :=
  match d.deleteResult state.name.valueString with
  | some e =>
    { calls := [.delete state.name.valueString]
      diags := [deleteErrorDiag state.name.valueString e], newState := none }
  | none =>
    match d.pullResult plan.name.valueString with
    | some e =>
      { calls := [.delete state.name.valueString, .pull plan.name.valueString false]
        diags := [pullErrorDiag e], newState := none }
    | none =>
      { calls := [.delete state.name.valueString, .pull plan.name.valueString false]
        diags := [], newState := some plan }

/-- What Read did to the persisted state: removed the resource, or wrote a
state record back. -/
inductive StateOutcome where
  | removed
  | set (s : OllamaModelResource)
deriving DecidableEq

/-- Result of the resource Read method. -/
structure ReadResult where
  calls : List Call
  diags : List Diag
  outcome : StateOutcome
deriving DecidableEq

/-- Shallow embedding of `ollamaModelResource.Read` (ollama_model_resource.go
lines 117-151): Show the state's name; a 404 `api.StatusError` removes the
resource with no diagnostic, any other error adds a diagnostic leaving the
state in place, and on success the prior state is written back unchanged. -/
def readResource (d : Daemon) (state : OllamaModelResource) : ReadResult :=
  match d.showResult state.name.valueString with
  | some err =>
    match err with
    | .statusError code msg =>
      if code = 404 then
        { calls := [.show state.name.valueString], diags := [], outcome := .removed }
      else
        { calls := [.show state.name.valueString]
          diags := [readErrorDiag state.name.valueString (ShowError.errorText (.statusError code msg))]
          outcome := .set state }
    | .genericError msg =>
      { calls := [.show state.name.valueString]
        diags := [readErrorDiag state.name.valueString (ShowError.errorText (.genericError msg))]
        outcome := .set state }
  | none =>
    { calls := [.show state.name.valueString], diags := [], outcome := .set state }

/-- Projected model details in Terraform state (domain.go,
`OllamaModelDetails`); `families` keeps the daemon's element order, as
`types.ListValueFrom` does for a string slice. -/
structure OllamaModelDetails where
  format : TFString
  family : TFString
  families : List String
  parameterSize : TFString
  quantizationLevel : TFString
deriving DecidableEq

/-- One projected model entry in the data source state (domain.go,
`OllamaModel`). -/
structure OllamaModel where
  name : TFString
  modifiedAt : TFString
  size : TFInt64
  digest : TFString
  details : OllamaModelDetails
deriving DecidableEq

/-- The per-model projection performed by the data source Read loop body
(ollama_model_data_source.go lines 133-154). -/
def projectModel (m : ApiListModel) : OllamaModel :=
  { name := .value m.name
    modifiedAt := .value m.modifiedAt
    size := .value m.size
    digest := .value m.digest
    details :=
      { format := .value m.details.format
        family := .value m.details.family
        families := m.details.families
        parameterSize := .value m.details.parameterSize
        quantizationLevel := .value m.details.quantizationLevel } }

/-- Result of the data source Read: diagnostics and the models list written
to state (`none` when Read returned before setting state). -/
structure DataSourceReadResult where
  calls : List Call
  diags : List Diag
  models : Option (List OllamaModel)
deriving DecidableEq

/-- Diagnostic for a failed List (ollama_model_data_source.go line 129). -/
def listErrorDiag (msg : String) : Diag :=
  { summary := "Client Error"
    detail := "Unable to read ollama models, got error: " ++ msg }

/-- Shallow embedding of `OllamaModelDataSource.Read`
(ollama_model_data_source.go lines 117-161).  `initModels` is the models
slice obtained from `req.Config.Get` (nil, i.e. `[]`, for this computed-only
schema); the loop appends one projected entry per daemon model in order. -/
def dataSourceRead (d : Daemon) (initModels : List OllamaModel) : DataSourceReadResult :=
  match d.listResult with
  | .error e =>
    { calls := [.list], diags := [listErrorDiag e], models := none }
  | .ok ms =>
    { calls := [.list], diags := []
      models := some (initModels ++ ms.map projectModel) }

/-- The `req.ProviderData` value handed to resource/data-source Configure:
absent, a client handle, or a value of some other runtime type (recorded by
its type name, as `%T` prints it). -/
inductive ProviderData (C : Type) where
  | client (c : C)
  | other (typeName : String)

/-- Diagnostic for a wrong-typed provider data in the resource Configure
(ollama_model_resource.go lines 41-44). -/
def resourceConfigureTypeDiag (typeName : String) : Diag :=
  { summary := "Unexpected Data Source Configure Type"
    detail := "Expected *api.Client, got: " ++ typeName ++ ". Please report this issue to the provider developers." }

/-- Diagnostic for a wrong-typed provider data in the data source Configure
(ollama_model_data_source.go lines 106-109). -/
def dataSourceConfigureTypeDiag (typeName : String) : Diag :=
  { summary := "Unexpected Data Source Configure Type"
    detail := "Expected *http.Client, got: " ++ typeName ++ ". Please report this issue to the provider developers." }

/-- Shallow embedding of `ollamaModelResource.Configure`
(ollama_model_resource.go lines 33-51): returns the diagnostics added and
the client handle stored (`none` when left unset). -/
def resourceConfigure {C : Type} (pd : Option (ProviderData C)) :
    List Diag × Option C :=
  match pd with
  | none => ([], none)
  | some (.client c) => ([], some c)
  | some (.other t) => ([resourceConfigureTypeDiag t], none)

/-- Shallow embedding of `OllamaModelDataSource.Configure`
(ollama_model_data_source.go lines 97-115). -/
def dataSourceConfigure {C : Type} (pd : Option (ProviderData C)) :
    List Diag × Option C :=
  match pd with
  | none => ([], none)
  | some (.client c) => ([], some c)
  | some (.other t) => ([dataSourceConfigureTypeDiag t], none)

/-- The host string Configure goes on to use: the environment value, replaced
by the configured value when the host attribute is non-null (provider.go
lines 72-76). -/
def effectiveHost (configHost : TFString) (env : String) : String :=
  if configHost.isNull then env else configHost.valueString

/-- A plan record with only the name set, as a minimal configuration. -/
def planLlama : OllamaModelResource :=
  { name := .value "llama2", modifiedAt := .null, size := .null, digest := .null }

/-- Old state for exercising Update. -/
def stateOld : OllamaModelResource :=
  { name := .value "old-model", modifiedAt := .null, size := .null, digest := .null }

/-- New plan for exercising Update. -/
def planNew : OllamaModelResource :=
  { name := .value "new-model", modifiedAt := .null, size := .null, digest := .null }

/-- A daemon on which every call succeeds and List answers no models. -/
def daemonOk : Daemon :=
  { pullResult := fun _ => none, deleteResult := fun _ => none
    showResult := fun _ => none, listResult := .ok [] }

/-- A daemon whose Pull calls fail. -/
def daemonPullFail : Daemon :=
  { daemonOk with pullResult := fun _ => some "pull exploded" }

/-- A daemon whose Delete calls fail. -/
def daemonDeleteFail : Daemon :=
  { daemonOk with deleteResult := fun _ => some "delete exploded" }

/-- A daemon whose Show calls answer HTTP 404. -/
def daemonShow404 : Daemon :=
  { daemonOk with showResult := fun _ => some (.statusError 404 "model not found") }

/-- A daemon whose Show calls fail with a generic error. -/
def daemonShowFail : Daemon :=
  { daemonOk with showResult := fun _ => some (.genericError "daemon down") }

/-- A daemon whose List call fails. -/
def daemonListFail : Daemon :=
  { daemonOk with listResult := .error "daemon down" }

/-- A daemon model entry with a two-element families list. -/
def apiModelM1 : ApiListModel :=
  { name := "m1", modifiedAt := "2024-01-01 00:00:00 +0000 UTC", size := 42
    digest := "sha256:abc"
    details := { format := "gguf", family := "llama", families := ["a", "b"]
                 parameterSize := "7B", quantizationLevel := "Q4_0" } }

/-- A daemon whose List call answers the single model `apiModelM1`. -/
def daemonListOne : Daemon :=
  { daemonOk with listResult := .ok [apiModelM1] }

/-- C1: with a known host, an explicitly configured non-empty host resolves
to itself whatever the environment holds, and a null configured host with a
non-empty environment resolves to the environment value. -/
theorem configure_host_resolution (s env env2 : String) (c c2 : Bool)
    (hs : s ≠ "") (henv : env2 ≠ "") :
    (providerConfigure (.value s) env c).resolvedHost = some s ∧
    (providerConfigure .null env2 c2).resolvedHost = some env2 := by
  constructor
  · cases c <;>
      simp [providerConfigure, TFString.isUnknown, TFString.isNull,
            TFString.valueString, hs]
  · cases c2 <;>
      simp [providerConfigure, TFString.isUnknown, TFString.isNull,
            TFString.valueString, henv]

/-- Witness for `configure_host_resolution` at concrete hosts. -/
theorem configure_host_resolution_witness :
    (providerConfigure (.value "cfg-host") "env-host" true).resolvedHost = some "cfg-host" ∧
    (providerConfigure .null "env-host" true).resolvedHost = some "env-host" :=
  configure_host_resolution "cfg-host" "env-host" "env-host" true true
    (by decide) (by decide)

/-- C2 counterexample: with the host configured to the empty string and a
non-empty environment value the environment yields a usable host, yet
Configure still fails with the missing-host error. -/
theorem configure_missing_host_counterexample :
    ("env-host" ≠ "") ∧
    (providerConfigure (.value "") "env-host" true).diags = [missingHostDiag] := by
  exact ⟨by decide, rfl⟩

/-- C2 amended: for a known host attribute, Configure fails with the
missing-host error exactly when the effective host is empty, i.e. when the
configured value is non-null and empty, or the host is null and the
environment value is empty. -/
theorem configure_missing_host_iff (configHost : TFString) (env : String) (c : Bool)
    (hk : configHost.isUnknown = false) :
    missingHostDiag ∈ (providerConfigure configHost env c).diags ↔
      ((configHost.isNull = false ∧ configHost.valueString = "") ∨
       (configHost.isNull = true ∧ env = "")) := by
  cases configHost with
  | unknown => simp [TFString.isUnknown] at hk
  | null =>
    by_cases henv : env = "" <;>
      cases c <;>
        simp [providerConfigure, TFString.isUnknown, TFString.isNull,
              TFString.valueString, henv, missingHostDiag, clientErrorDiag]
  | value s =>
    by_cases hs : s = "" <;>
      cases c <;>
        simp [providerConfigure, TFString.isUnknown, TFString.isNull,
              TFString.valueString, hs, missingHostDiag, clientErrorDiag]

/-- Witness for `configure_missing_host_iff`: null host and empty
environment produce the missing-host error. -/
theorem configure_missing_host_iff_witness :
    missingHostDiag ∈ (providerConfigure .null "" true).diags :=
  (configure_missing_host_iff .null "" true rfl).mpr (Or.inr ⟨rfl, rfl⟩)

/-- C9: whenever the host attribute is known and the effective host is
non-empty, Configure writes the resolved host into the `OLLAMA_HOST`
environment variable strictly before constructing the client, the final
environment value is exactly the resolved host, and in particular a
configured host value overwrites whatever `OLLAMA_HOST` previously held. -/
theorem configure_env_writeback (configHost : TFString) (env : String) (c : Bool)
    (hk : configHost.isUnknown = false)
    (hne : effectiveHost configHost env ≠ "") :
    (providerConfigure configHost env c).events =
      [.setEnv (effectiveHost configHost env), .mkClient] ∧
    (providerConfigure configHost env c).envAfter = effectiveHost configHost env ∧
    (∀ s, configHost = .value s → (providerConfigure configHost env c).envAfter = s) := by
  cases configHost with
  | unknown => simp [TFString.isUnknown] at hk
  | null =>
    simp only [effectiveHost, TFString.isNull, if_pos] at hne ⊢
    cases c <;>
      simp [providerConfigure, TFString.isUnknown, TFString.isNull, hne]
  | value s =>
    have hs : s ≠ "" := by
      simpa [effectiveHost, TFString.isNull, TFString.valueString] using hne
    cases c <;>
      simp [providerConfigure, TFString.isUnknown, TFString.isNull,
            TFString.valueString, effectiveHost, hs]

/-- Witness for `configure_env_writeback`: a configured host overwrites a
previously set environment value. -/
theorem configure_env_writeback_witness :
    (providerConfigure (.value "cfg-host") "old-env" false).envAfter = "cfg-host" :=
  (configure_env_writeback (.value "cfg-host") "old-env" false rfl
    (by decide)).2.2 "cfg-host" rfl

/-- C10: resource and data-source Configure with nil provider data return
without diagnostics and leave the client unset; a client handle is stored
without diagnostics; a diagnostic is added exactly when provider data is
present but of an unexpected type. -/
theorem nil_provider_data_configure {C : Type} (pd : Option (ProviderData C)) :
    resourceConfigure (none : Option (ProviderData C)) = ([], none) ∧
    dataSourceConfigure (none : Option (ProviderData C)) = ([], none) ∧
    ((resourceConfigure pd).1 ≠ [] ↔ ∃ t, pd = some (.other t)) ∧
    ((dataSourceConfigure pd).1 ≠ [] ↔ ∃ t, pd = some (.other t)) ∧
    (∀ c, pd = some (.client c) →
      resourceConfigure pd = ([], some c) ∧ dataSourceConfigure pd = ([], some c)) := by
  refine ⟨rfl, rfl, ?_, ?_, ?_⟩
  · cases pd with
    | none => simp [resourceConfigure]
    | some v => cases v <;> simp [resourceConfigure]
  · cases pd with
    | none => simp [dataSourceConfigure]
    | some v => cases v <;> simp [dataSourceConfigure]
  · intro c hc
    subst hc
    exact ⟨rfl, rfl⟩

/-- Witness for `nil_provider_data_configure` at a concrete client handle. -/
theorem nil_provider_data_configure_witness :
    resourceConfigure (some (.client 7) : Option (ProviderData Nat)) = ([], some 7) :=
  ((nil_provider_data_configure (some (.client 7) : Option (ProviderData Nat))).2.2.2.2
    7 rfl).1

/-- C3: Update always issues the Delete of the old state name as its first
daemon call; when the Delete fails the Pull is never attempted, an upstream
error diagnostic is added and no state is persisted; when the Delete
succeeds and the Pull of the planned name fails, the calls are exactly
Delete then Pull, an upstream error diagnostic is added and the new state is
not persisted. -/
theorem update_delete_before_pull (d : Daemon) (state plan : OllamaModelResource) :
    (update d state plan).calls.head? = some (.delete state.name.valueString) ∧
    (∀ e, d.deleteResult state.name.valueString = some e →
      (update d state plan).calls = [.delete state.name.valueString] ∧
      (update d state plan).diags = [deleteErrorDiag state.name.valueString e] ∧
      (update d state plan).newState = none) ∧
    (∀ e, d.deleteResult state.name.valueString = none →
      d.pullResult plan.name.valueString = some e →
      (update d state plan).calls =
        [.delete state.name.valueString, .pull plan.name.valueString false] ∧
      (update d state plan).diags = [pullErrorDiag e] ∧
      (update d state plan).newState = none) := by
  cases hdel : d.deleteResult state.name.valueString with
  | some e => simp [update, hdel]
  | none =>
    cases hpull : d.pullResult plan.name.valueString with
    | some e => simp [update, hdel, hpull]
    | none => simp [update, hdel, hpull]

/-- Witness for `update_delete_before_pull`: a failing Delete stops Update
after the single Delete call, and a failing Pull after a successful Delete
leaves the state unset. -/
theorem update_delete_before_pull_witness :
    (update daemonDeleteFail stateOld planNew).calls = [.delete "old-model"] ∧
    (update daemonDeleteFail stateOld planNew).newState = none ∧
    (update daemonPullFail stateOld planNew).calls =
      [.delete "old-model", .pull "new-model" false] ∧
    (update daemonPullFail stateOld planNew).newState = none := by
  have h1 := (update_delete_before_pull daemonDeleteFail stateOld planNew).2.1
    "delete exploded" rfl
  have h2 := (update_delete_before_pull daemonPullFail stateOld planNew).2.2
    "pull exploded" rfl rfl
  exact ⟨h1.1, h1.2.2, h2.1, h2.2.2⟩

/-- C4: Create issues exactly one non-streaming Pull for the planned name;
on daemon error it adds a diagnostic whose detail carries the daemon's
message and persists no state; on success it adds no diagnostic and persists
exactly the plan record. -/
theorem create_pull_then_persist (d : Daemon) (plan : OllamaModelResource) :
    (create d plan).calls = [.pull plan.name.valueString false] ∧
    (∀ e, d.pullResult plan.name.valueString = some e →
      (create d plan).diags = [pullErrorDiag e] ∧
      (pullErrorDiag e).detail = "Could not pull model, unexpected error: " ++ e ∧
      (create d plan).newState = none) ∧
    (d.pullResult plan.name.valueString = none →
      (create d plan).diags = [] ∧ (create d plan).newState = some plan) := by
  cases hpull : d.pullResult plan.name.valueString with
  | some e => simp [create, hpull, pullErrorDiag]
  | none => simp [create, hpull]

/-- Witness for `create_pull_then_persist`: a failing Pull leaves the state
unset, a successful Pull persists the plan. -/
theorem create_pull_then_persist_witness :
    (create daemonPullFail planLlama).newState = none ∧
    (create daemonOk planLlama).newState = some planLlama := by
  have h1 := (create_pull_then_persist daemonPullFail planLlama).2.1 "pull exploded" rfl
  have h2 := (create_pull_then_persist daemonOk planLlama).2.2 rfl
  exact ⟨h1.2.2, h2.2⟩

/-- C5: when Show answers a 404 status error, Read removes the resource from
state and adds no diagnostic. -/
theorem read_404_removes (d : Daemon) (state : OllamaModelResource) (msg : String)
    (h : d.showResult state.name.valueString = some (.statusError 404 msg)) :
    (readResource d state).outcome = .removed ∧ (readResource d state).diags = [] := by
  simp [readResource, h]

/-- Witness for `read_404_removes` on a concrete daemon answering 404. -/
theorem read_404_removes_witness :
    (readResource daemonShow404 planLlama).outcome = .removed ∧
    (readResource daemonShow404 planLlama).diags = [] :=
  read_404_removes daemonShow404 planLlama "model not found" rfl

/-- C6: in every non-404 case Read leaves the state unchanged: a Show error
that is not a 404 adds a diagnostic and writes the prior state back, and a
successful Show writes the prior state back with no diagnostic. -/
theorem read_state_frame (d : Daemon) (state : OllamaModelResource) :
    (∀ err, d.showResult state.name.valueString = some err →
      ShowError.isNotFound err = false →
      (readResource d state).diags =
        [readErrorDiag state.name.valueString (ShowError.errorText err)] ∧
      (readResource d state).outcome = .set state) ∧
    (d.showResult state.name.valueString = none →
      (readResource d state).diags = [] ∧
      (readResource d state).outcome = .set state) := by
  constructor
  · intro err herr hnf
    cases err with
    | statusError code msg =>
      have hc : code ≠ 404 := by
        intro hc
        subst hc
        simp [ShowError.isNotFound] at hnf
      simp [readResource, herr, hc]
    | genericError msg => simp [readResource, herr]
  · intro hok
    simp [readResource, hok]

/-- Witness for `read_state_frame`: a generic Show failure keeps the prior
state and reports it; a successful Show keeps the prior state silently. -/
theorem read_state_frame_witness :
    (readResource daemonShowFail planLlama).outcome = .set planLlama ∧
    (readResource daemonOk planLlama).outcome = .set planLlama := by
  have h1 := (read_state_frame daemonShowFail planLlama).1
    (.genericError "daemon down") rfl rfl
  have h2 := (read_state_frame daemonOk planLlama).2 rfl
  exact ⟨h1.2, h2.2⟩

/-- C7: on a successful List, the data source writes exactly the daemon's
models projected in order: the result has the same length as the response,
its i-th entry is the projection of the i-th daemon model, and the
projection keeps every field including the families list in the daemon's
element order. -/
theorem data_source_projection (d : Daemon) (ms : List ApiListModel)
    (h : d.listResult = .ok ms) :
    (dataSourceRead d []).models = some (ms.map projectModel) ∧
    (ms.map projectModel).length = ms.length ∧
    (∀ i (hi : i < ms.length),
      (ms.map projectModel).get ⟨i, by simpa using hi⟩ = projectModel (ms.get ⟨i, hi⟩)) ∧
    (∀ m : ApiListModel, (projectModel m).details.families = m.details.families) := by
  refine ⟨by simp [dataSourceRead, h], List.length_map _ _, ?_, fun m => rfl⟩
  intro i hi
  simp [List.get_eq_getElem, List.getElem_map]

/-- Witness for `data_source_projection`: the single-model response projects
to the single projected entry with families order preserved. -/
theorem data_source_projection_witness :
    (dataSourceRead daemonListOne []).models = some [projectModel apiModelM1] ∧
    (projectModel apiModelM1).details.families = ["a", "b"] :=
  ⟨(data_source_projection daemonListOne [apiModelM1] rfl).1, rfl⟩

/-- C8: a successful List with zero models yields no diagnostic and an empty
models list written to state, while a failing List yields exactly the client
error diagnostic and leaves the state unset. -/
theorem data_source_empty_and_error (d : Daemon) :
    (d.listResult = .ok [] →
      (dataSourceRead d []).diags = [] ∧ (dataSourceRead d []).models = some []) ∧
    (∀ e, d.listResult = .error e →
      (dataSourceRead d []).diags = [listErrorDiag e] ∧
      (dataSourceRead d []).models = none) := by
  constructor
  · intro h
    simp [dataSourceRead, h]
  · intro e h
    simp [dataSourceRead, h]

/-- Witness for `data_source_empty_and_error` on concrete daemons. -/
theorem data_source_empty_and_error_witness :
    (dataSourceRead daemonOk []).models = some [] ∧
    (dataSourceRead daemonListFail []).models = none := by
  have h1 := (data_source_empty_and_error daemonOk).1 rfl
  have h2 := (data_source_empty_and_error daemonListFail).2 "daemon down" rfl
  exact ⟨h1.2, h2.2⟩

end OllamaProvider
